import Mathlib

/-!
Verification development for the Pangolin video core
(`include/pangolin/video.h`): the URI model, the pixel-format lookup,
and the generic input/output facades, shallowly embedded in Lean 4.
-/

namespace Pangolin

/-- Error taxonomy of the video core (spec section 7): parse faults,
parameter conversion faults, unknown-format faults, use-before-open
faults and bad stream indices. -/
inductive VideoError where
  | MalformedUriError : String → VideoError
  | ParamConversionError : String → VideoError
  | UnknownFormatError : String → VideoError
  | NotOpenError : VideoError
  | OutOfRangeError : VideoError
deriving DecidableEq, Repr

/-- `VideoPixelFormat` from video.h lines 81-92: canonical token,
channel count, per-channel bit depths (four slots), bits/bytes per
pixel and the planar flag. -/
structure VideoPixelFormat where
  format : String
  channels : Nat
  channel_bits : List Nat
  bpp : Nat
  planar : Bool
deriving DecidableEq, Repr

/-- video.h line 85: the implicit conversion `operator std::string`
of `VideoPixelFormat` returns the `format` field. -/
def VideoPixelFormat.toStdString (p : VideoPixelFormat) : String :=
  p.format

/-- `Uri` from video.h lines 94-113: scheme, trailing url and the
parameter map, the latter embedded as an association list with
`List.lookup` playing the role of `std::map::find`. -/
structure Uri where
  scheme : String
  url : String
  params : List (String × String)
deriving DecidableEq, Repr

/-- video.h lines 100-102: `Uri::Contains` returns whether `key` is
found in `params`. -/
def Uri.Contains (u : Uri) (key : String) : Bool :=
  (u.params.lookup key).isSome

/-- The C++ `Uri::Contains` is a non-const member; this state-passing
wrapper of `Uri.Contains` returns the answer together with the object
it leaves behind, making the absence of mutation statable. -/
def Uri.ContainsM (u : Uri) (key : String) : Bool × Uri :=
  (u.Contains key, u)

/-- video.h lines 104-112: `Uri::Get<T>(key, default_val)` looks up
`key` in `params`; if present, the stored string goes through
`Convert<T,std::string>::Do` (embedded as the parameter `conv`, which
may fail); otherwise the default is returned. -/
def Uri.Get {T : Type} (conv : String → Except VideoError T)
    (u : Uri) (key : String) (default_val : T) : Except VideoError T :=
  match u.params.lookup key with
  | some v => conv v
  | none => .ok default_val

/-- Reads a nonempty all-digit character list as a natural number;
`none` on anything else. -/
def natFromChars (cs : List Char) : Option Nat :=
  if cs ≠ [] ∧ cs.all (fun c => c.isDigit) then
    some (cs.foldl (fun n c => n * 10 + (c.toNat - 48)) 0)
  else none

/-- Modelled from the spec: `Convert<T,std::string>::Do` lives in
pangolin/type_convert.h, which is not under src. Spec section 4.1: the
stored string is converted to the requested semantic type (here: a
natural number) and conversion failure fails with
`ParamConversionError`. -/
def convertToNat (s : String) : Except VideoError Nat :=
  match natFromChars s.data with
  | some n => .ok n
  | none => .error (.ParamConversionError s)

/-- Splits a character list at the first `:` into the part before and
the part after; `none` when there is no colon. -/
def splitAtFirstColon : List Char → Option (List Char × List Char)
  | [] => none
  | c :: cs =>
    if c = ':' then some ([], cs)
    else (splitAtFirstColon cs).map (fun p => (c :: p.1, p.2))

/-- Extracts the optional bracketed parameter block: when the input
starts with `[`, returns the characters up to the first `]` together
with what follows the `]`; otherwise no block. -/
def takeParamBlock (cs : List Char) : Option (List Char) × List Char :=
  match cs with
  | '[' :: rest =>
    (some (rest.takeWhile (fun c => c ≠ ']')),
     (rest.dropWhile (fun c => c ≠ ']')).drop 1)
  | _ => (none, cs)

/-- Drops a leading `//` from the resource part, if present. -/
def dropSlashSlash : List Char → List Char
  | '/' :: '/' :: rest => rest
  | rest => rest

/-- Splits one `key=value` piece at its first `=`; a piece without `=`
becomes a key with an empty value. -/
def parseParamPair (piece : List Char) : String × String :=
  ((piece.takeWhile (fun c => c ≠ '=')).asString,
   ((piece.dropWhile (fun c => c ≠ '=')).drop 1).asString)

/-- Inserts a binding into the parameter map, discarding any previous
binding of the same key, so that the last occurrence wins. -/
def mapInsert (m : List (String × String)) (k v : String) :
    List (String × String) :=
  (m.filter (fun p => p.1 ≠ k)) ++ [(k, v)]

/-- Parses the optional comma-separated parameter block into the
parameter map. -/
def parseParams : Option (List Char) → List (String × String)
  | none => []
  | some block =>
    (((block.splitOn ',').filter (fun p => p ≠ [])).map parseParamPair).foldl
      (fun m kv => mapInsert m kv.1 kv.2) []

/-- Modelled from the spec: the body of `ParseUri` (declared at
video.h line 208) lives in video.cpp, which is not under src. Spec
section 4.1: grammar `scheme:[param1=value1,...]//resource` with the
bracketed block optional, failure with `MalformedUriError` when no
scheme separator is found, resource copied verbatim after `//`, and
the invariant that `scheme` is non-empty on success. -/
def ParseUri (str_uri : String) : Except VideoError Uri :=
  match splitAtFirstColon str_uri.data with
  | none => .error (.MalformedUriError str_uri)
  | some (schemeCs, rest) =>
    if schemeCs = [] then .error (.MalformedUriError str_uri)
    else
      let pb := takeParamBlock rest
      .ok { scheme := schemeCs.asString
            url := (dropSlashSlash pb.2).asString
            params := parseParams pb.1 }

/-- Modelled from the spec: the table behind `VideoFormatFromString`
(declared at video.h line 117) lives in video.cpp, which is not under
src. Spec section 4.2: a fixed registry mapping each supported token
to its structured description, covering packed/planar YUV, RGB/BGR,
grayscale and Bayer tokens. -/
def pixelFormatRegistry : List (String × VideoPixelFormat) :=
  [ ("GRAY8", ⟨"GRAY8", 1, [8, 0, 0, 0], 8, false⟩),
    ("GRAY16LE", ⟨"GRAY16LE", 1, [16, 0, 0, 0], 16, false⟩),
    ("RGB24", ⟨"RGB24", 3, [8, 8, 8, 0], 24, false⟩),
    ("BGR24", ⟨"BGR24", 3, [8, 8, 8, 0], 24, false⟩),
    ("YUYV422", ⟨"YUYV422", 3, [4, 2, 2, 0], 16, false⟩),
    ("YUV420P", ⟨"YUV420P", 3, [8, 4, 4, 0], 12, true⟩) ]

/-- Modelled from the spec: the body of `VideoFormatFromString`
(declared at video.h line 117) lives in video.cpp, which is not under
src. Spec section 4.2: a pure lookup over the registry, failing with
`UnknownFormatError` for unrecognized tokens. -/
def VideoFormatFromString (format : String) :
    Except VideoError VideoPixelFormat :=
  match pixelFormatRegistry.lookup format with
  | some f => .ok f
  | none => .error (.UnknownFormatError format)

/-- A resolved capture backend. Concrete backends live behind the
`VideoInterface` vtable (video.h lines 120-142) outside src; for the
facade claims only their identity as owned resources matters. -/
structure Backend where
  id : Nat
deriving DecidableEq, Repr

/-- The allocation world: the next fresh backend id and the ids of the
currently live (allocated and not yet destroyed) backends. The live
count stands for the resource count of the spec. -/
structure World where
  nextId : Nat
  live : List Nat
deriving DecidableEq, Repr

/-- Destroying a backend removes its id from the live set. -/
def World.destroy (w : World) (b : Backend) : World :=
  { w with live := w.live.erase b.id }

/-- Allocating a backend adds a fresh id to the live set. -/
def World.create (w : World) : World × Backend :=
  ({ nextId := w.nextId + 1, live := w.live ++ [w.nextId] }, ⟨w.nextId⟩)

/-- `VideoInput` from video.h lines 145-168: the facade holds the last
uri and the backend pointer, here an optional owned backend. -/
structure VideoInput where
  uri : String
  video : Option Backend
deriving DecidableEq, Repr

/-- Modelled from the spec: the body of `VideoInput::Open` (declared
at video.h line 151) lives in video.cpp, which is not under src. Spec
section 4.5: `Open(uri)` replaces the held backend, destroying the
previous one first, then resolves and installs the new backend. -/
def VideoInput.Open (st : World × VideoInput) (uri : String) :
    World × VideoInput :=
  let w1 :=
    match st.2.video with
    | some b => st.1.destroy b
    | none => st.1
  let wb := w1.create
  (wb.1, { uri := uri, video := some wb.2 })

/-- Pure forwarding of a facade call to the held backend; with no
backend held the call fails with `NotOpenError`. Modelled from the
spec: the forwarding bodies (video.h lines 154-162) live in video.cpp,
which is not under src; spec section 4.5 makes every interface method
pure forwarding that fails with `NotOpenError` before a successful
`Open`. -/
def VideoInput.forward {α : Type} (vi : VideoInput) (f : Backend → α) :
    Except VideoError α :=
  match vi.video with
  | some b => .ok (f b)
  | none => .error .NotOpenError

/-- Facade `Width`, forwarding to the backend's width. -/
def VideoInput.Width (vi : VideoInput) (f : Backend → Nat) :
    Except VideoError Nat :=
  vi.forward f

/-- Facade `Height`, forwarding to the backend's height. -/
def VideoInput.Height (vi : VideoInput) (f : Backend → Nat) :
    Except VideoError Nat :=
  vi.forward f

/-- Facade `SizeBytes`, forwarding to the backend's frame size. -/
def VideoInput.SizeBytes (vi : VideoInput) (f : Backend → Nat) :
    Except VideoError Nat :=
  vi.forward f

/-- Facade `PixFormat`, forwarding to the backend's pixel format. -/
def VideoInput.PixFormat (vi : VideoInput)
    (f : Backend → VideoPixelFormat) : Except VideoError VideoPixelFormat :=
  vi.forward f

/-- Facade `Start`, forwarding the lifecycle transition. -/
def VideoInput.Start (vi : VideoInput) (f : Backend → Backend) :
    Except VideoError Backend :=
  vi.forward f

/-- Facade `Stop`, forwarding the lifecycle transition. -/
def VideoInput.Stop (vi : VideoInput) (f : Backend → Backend) :
    Except VideoError Backend :=
  vi.forward f

/-- Facade `GrabNext`, forwarding the grab with its wait flag. -/
def VideoInput.GrabNext (vi : VideoInput) (f : Backend → Bool → Bool)
    (wait : Bool) : Except VideoError Bool :=
  vi.forward (fun b => f b wait)

/-- Facade `GrabNewest`, forwarding the grab with its wait flag. -/
def VideoInput.GrabNewest (vi : VideoInput) (f : Backend → Bool → Bool)
    (wait : Bool) : Except VideoError Bool :=
  vi.forward (fun b => f b wait)

/-- Modelled from the spec: concrete recorder backends behind
`RecorderInterface` (video.h lines 178-183) are not under src. Spec
section 4.4: a recorder backend owns an append-only sequence of
streams, each with its own dimensions and encoder format. -/
structure RecorderBackend where
  streams : List (Int × Int × String)
deriving DecidableEq, Repr

/-- Modelled from the spec: `AddStream(w, h, encoder_fmt)` (video.h
line 181) appends a new stream and assigns it the next index, which
the model returns alongside the updated backend. -/
def RecorderBackend.AddStream (r : RecorderBackend) (w h : Int)
    (encoder_fmt : String) : RecorderBackend × Nat :=
  ({ streams := r.streams ++ [(w, h, encoder_fmt)] }, r.streams.length)

/-- Modelled from the spec: the indexing operator `operator[]`
(video.h line 182) returns the stream at index `i` and fails with
`OutOfRangeError` when `i` is not below the stream count. -/
def RecorderBackend.getStream (r : RecorderBackend) (i : Nat) :
    Except VideoError (Int × Int × String) :=
  match r.streams[i]? with
  | some s => .ok s
  | none => .error .OutOfRangeError

/-- `VideoOutput` from video.h lines 185-201: the facade holds the
recorder pointer, here an optional owned recorder backend. -/
structure VideoOutput where
  recorder : Option RecorderBackend
deriving DecidableEq, Repr

/-- Facade `AddStream` (video.h line 196), forwarding to the held
recorder; fails with `NotOpenError` with no recorder held. -/
def VideoOutput.AddStream (vo : VideoOutput) (w h : Int)
    (encoder_fmt : String) : Except VideoError (VideoOutput × Nat) :=
  match vo.recorder with
  | some r =>
    let ri := r.AddStream w h encoder_fmt
    .ok ({ recorder := some ri.1 }, ri.2)
  | none => .error .NotOpenError

/-- Facade indexing operator (video.h line 197), forwarding to the
held recorder; fails with `NotOpenError` with no recorder held. -/
def VideoOutput.getStream (vo : VideoOutput) (i : Nat) :
    Except VideoError (Int × Int × String) :=
  match vo.recorder with
  | some r => r.getStream i
  | none => .error .NotOpenError

end Pangolin

deriving instance DecidableEq for Except

namespace Pangolin

/-- Association-list lookup succeeds exactly when some binding of the
key is present. -/
theorem lookup_isSome_iff {l : List (String × String)} {k : String} :
    (l.lookup k).isSome = true ↔ ∃ v, (k, v) ∈ l := by
  induction l with
  | nil => simp [List.lookup]
  | cons p t ih =>
    obtain ⟨a, b⟩ := p
    by_cases hak : k = a
    · subst hak
      simp [List.lookup]
    · have hba : (k == a) = false := beq_eq_false_iff_ne.mpr hak
      simp only [List.lookup, hba, List.mem_cons, Prod.mk.injEq]
      rw [ih]
      constructor
      · rintro ⟨v, hv⟩
        exact ⟨v, Or.inr hv⟩
      · rintro ⟨v, hv | hv⟩
        · exact absurd hv.1 hak
        · exact ⟨v, hv⟩

/-- A character list with no colon has no split at a colon. -/
theorem splitAtFirstColon_eq_none {cs : List Char}
    (h : ∀ c ∈ cs, c ≠ ':') : splitAtFirstColon cs = none := by
  induction cs with
  | nil => rfl
  | cons c t ih =>
    have hc : c ≠ ':' := h c (List.mem_cons_self c t)
    have ht : ∀ x ∈ t, x ≠ ':' := fun x hx => h x (List.mem_cons_of_mem c hx)
    simp [splitAtFirstColon, hc, ih ht]

/-- A nonempty character list renders to a nonempty string. -/
theorem asString_ne_empty {cs : List Char} (h : cs ≠ []) :
    cs.asString ≠ "" := by
  intro hcontra
  apply h
  have hdata := congrArg String.data hcontra
  simpa [List.asString] using hdata

/-- C1: for every Uri, every key absent from its params map, every
converter and every default value, `Uri::Get` (video.h lines 104-112)
returns exactly the default and never fails. -/
theorem C1_get_absent_returns_default {T : Type}
    (conv : String → Except VideoError T) (u : Uri) (key : String)
    (d : T) (h : u.Contains key = false) :
    u.Get conv key d = .ok d := by
  cases hcase : u.params.lookup key with
  | none => simp [Uri.Get, hcase]
  | some v =>
    exfalso
    rw [Uri.Contains, hcase] at h
    simp at h

/-- Witness for C1 at a concrete Uri whose params lack the key. -/
theorem C1_witness :
    (Uri.mk "file" "" [("a", "1")]).Contains "b" = false ∧
      Uri.Get convertToNat (Uri.mk "file" "" [("a", "1")]) "b" 7 =
        .ok 7 :=
  ⟨by decide,
   C1_get_absent_returns_default convertToNat
     (Uri.mk "file" "" [("a", "1")]) "b" 7 (by decide)⟩

/-- C2: for every key present in the params map, `Uri::Get` returns
exactly the converter's result — never the default — so a convertible
stored value comes back converted and a non-convertible one fails with
`ParamConversionError`. -/
theorem C2_get_present_converts {T : Type}
    (conv : String → Except VideoError T) (u : Uri) (key v : String)
    (d : T) (dn : Nat) (h : u.params.lookup key = some v) :
    u.Get conv key d = conv v ∧
      (∀ n, natFromChars v.data = some n →
        u.Get convertToNat key dn = .ok n) ∧
      (natFromChars v.data = none →
        u.Get convertToNat key dn = .error (.ParamConversionError v)) := by
  refine ⟨by simp [Uri.Get, h], ?_, ?_⟩
  · intro n hn
    simp [Uri.Get, h, convertToNat, hn]
  · intro hn
    simp [Uri.Get, h, convertToNat, hn]

/-- Witness for C2 at a concrete Uri holding a convertible value. -/
theorem C2_witness :
    (Uri.mk "s" "" [("a", "12")]).params.lookup "a" = some "12" ∧
      natFromChars ("12").data = some 12 ∧
      Uri.Get convertToNat (Uri.mk "s" "" [("a", "12")]) "a" 7 =
        .ok 12 :=
  ⟨by decide, by decide,
   (C2_get_present_converts convertToNat (Uri.mk "s" "" [("a", "12")])
       "a" "12" 7 7 (by decide)).2.1 12 (by decide)⟩

/-- C3: parsing `file:[realtime=1]///a/b.mov` yields scheme `file`,
exactly the binding realtime to 1, and url `/a/b.mov`. -/
theorem C3_parse_file_realtime :
    ParseUri "file:[realtime=1]///a/b.mov" =
      .ok { scheme := "file", url := "/a/b.mov",
            params := [("realtime", "1")] } := by
  rfl

/-- C4: an input with no scheme separator fails with
`MalformedUriError`, and every successfully returned Uri has a
non-empty scheme. -/
theorem C4_scheme_separator_required :
    (∀ s : String, (∀ c ∈ s.data, c ≠ ':') →
      ParseUri s = .error (.MalformedUriError s)) ∧
    (∀ (s : String) (u : Uri), ParseUri s = .ok u → u.scheme ≠ "") := by
  constructor
  · intro s hs
    unfold ParseUri
    rw [splitAtFirstColon_eq_none hs]
  · intro s u h
    unfold ParseUri at h
    cases hsplit : splitAtFirstColon s.data with
    | none =>
      rw [hsplit] at h
      exact absurd h (by simp)
    | some p =>
      obtain ⟨schemeCs, rest⟩ := p
      rw [hsplit] at h
      by_cases hemp : schemeCs = []
      · simp [hemp] at h
      · simp only [hemp, if_false, ite_false, if_neg] at h
        have hu : u.scheme = schemeCs.asString := by
          cases h
          rfl
        rw [hu]
        exact asString_ne_empty hemp

/-- Witness for C4 on a colon-free input string. -/
theorem C4_witness :
    (∀ c ∈ ("abc" : String).data, c ≠ ':') ∧
      ParseUri "abc" = .error (.MalformedUriError "abc") :=
  ⟨by decide, C4_scheme_separator_required.1 "abc" (by decide)⟩

/-- C5: opening the facade a second time first destroys the held
backend, so the facade always holds exactly one backend and the live
resource count after two Opens equals the count after one Open. -/
theorem C5_open_twice_no_leak (w : World) (vi : VideoInput)
    (u1 u2 : String) (h : vi.video = none) :
    ((VideoInput.Open (VideoInput.Open (w, vi) u1) u2).1.live.length =
        (VideoInput.Open (w, vi) u1).1.live.length) ∧
      (VideoInput.Open (VideoInput.Open (w, vi) u1) u2).2.video.isSome = true ∧
      (VideoInput.Open (w, vi) u1).2.video.isSome = true := by
  have hmem : w.nextId ∈ w.live ++ [w.nextId] := by simp
  refine ⟨?_, ?_, ?_⟩
  · simp only [VideoInput.Open, h, World.create, World.destroy]
    simp [List.length_erase_of_mem hmem]
  · simp [VideoInput.Open, h, World.create, World.destroy]
  · simp [VideoInput.Open, h, World.create]

/-- Witness for C5 from a fresh world and a never-opened facade. -/
theorem C5_witness :
    (VideoInput.mk "" none).video = none ∧
      (VideoInput.Open
          (VideoInput.Open ((World.mk 0 []), VideoInput.mk "" none) "a")
          "b").1.live.length =
        (VideoInput.Open ((World.mk 0 []), VideoInput.mk "" none)
          "a").1.live.length :=
  ⟨rfl,
   (C5_open_twice_no_leak (World.mk 0 []) (VideoInput.mk "" none)
     "a" "b" rfl).1⟩

/-- C6: before any successful Open, every forwarded facade method of
`VideoInput` and `VideoOutput` fails with `NotOpenError`. -/
theorem C6_not_open_fails (vi : VideoInput) (vo : VideoOutput)
    (fw fh fs : Backend → Nat) (fp : Backend → VideoPixelFormat)
    (fl : Backend → Backend) (fg : Backend → Bool → Bool)
    (wait : Bool) (w h : Int) (efmt : String) (i : Nat)
    (hvi : vi.video = none) (hvo : vo.recorder = none) :
    vi.Width fw = .error .NotOpenError ∧
      vi.Height fh = .error .NotOpenError ∧
      vi.SizeBytes fs = .error .NotOpenError ∧
      vi.PixFormat fp = .error .NotOpenError ∧
      vi.Start fl = .error .NotOpenError ∧
      vi.Stop fl = .error .NotOpenError ∧
      vi.GrabNext fg wait = .error .NotOpenError ∧
      vi.GrabNewest fg wait = .error .NotOpenError ∧
      vo.AddStream w h efmt = .error .NotOpenError ∧
      vo.getStream i = .error .NotOpenError := by
  simp [VideoInput.Width, VideoInput.Height, VideoInput.SizeBytes,
        VideoInput.PixFormat, VideoInput.Start, VideoInput.Stop,
        VideoInput.GrabNext, VideoInput.GrabNewest, VideoInput.forward,
        VideoOutput.AddStream, VideoOutput.getStream, hvi, hvo]

/-- Witness for C6 on concrete never-opened facades. -/
theorem C6_witness :
    (VideoInput.mk "" none).video = none ∧
      (VideoOutput.mk none).recorder = none ∧
      VideoInput.Width (VideoInput.mk "" none) (fun _ => 0) =
        .error .NotOpenError ∧
      VideoOutput.getStream (VideoOutput.mk none) 0 =
        .error .NotOpenError := by
  have hc := C6_not_open_fails (VideoInput.mk "" none)
    (VideoOutput.mk none) (fun _ => 0) (fun _ => 0) (fun _ => 0)
    (fun _ => VideoPixelFormat.mk "" 0 [] 0 false) (fun b => b)
    (fun _ _ => true) true 1 1 "f" 0 rfl rfl
  exact ⟨rfl, rfl, hc.1, hc.2.2.2.2.2.2.2.2.2⟩

/-- C7: `AddStream` appends a stream and assigns the next index, the
assigned index stably retrieves that stream (also after further
AddStream calls), streams are append-only, and indexing at or beyond
the stream count fails with `OutOfRangeError`. -/
theorem C7_recorder_streams (r : RecorderBackend) (w h : Int)
    (efmt : String) (i : Nat) :
    ((r.AddStream w h efmt).1.streams = r.streams ++ [(w, h, efmt)]) ∧
      ((r.AddStream w h efmt).1.getStream (r.AddStream w h efmt).2 =
        .ok (w, h, efmt)) ∧
      (∀ (w2 h2 : Int) (e2 : String),
        ((r.AddStream w h efmt).1.AddStream w2 h2 e2).1.getStream
          (r.AddStream w h efmt).2 = .ok (w, h, efmt)) ∧
      (r.streams.length ≤ i →
        r.getStream i = .error .OutOfRangeError) := by
  refine ⟨rfl, ?_, ?_, ?_⟩
  · simp [RecorderBackend.AddStream, RecorderBackend.getStream,
          List.getElem?_concat_length]
  · intro w2 h2 e2
    have hlt : r.streams.length < (r.streams ++ [(w, h, efmt)]).length := by
      simp
    have hq : ((r.streams ++ [(w, h, efmt)]) ++
        [(w2, h2, e2)])[r.streams.length]? = some (w, h, efmt) := by
      rw [List.getElem?_append_left hlt, List.getElem?_concat_length]
    simp only [RecorderBackend.AddStream, RecorderBackend.getStream]
    rw [hq]
  · intro hle
    simp [RecorderBackend.getStream, List.getElem?_eq_none hle]

/-- Witness for C7 on an empty recorder backend. -/
theorem C7_witness :
    (RecorderBackend.mk []).streams.length ≤ 0 ∧
      (RecorderBackend.mk []).getStream 0 = .error .OutOfRangeError ∧
      ((RecorderBackend.mk []).AddStream 640 480 "RGB24").1.getStream
        ((RecorderBackend.mk []).AddStream 640 480 "RGB24").2 =
        .ok (640, 480, "RGB24") := by
  have hc := C7_recorder_streams (RecorderBackend.mk []) 640 480 "RGB24" 0
  exact ⟨by decide, hc.2.2.2 (by decide), hc.2.1⟩

/-- C8: the pixel-format lookup is deterministic — two lookups of the
same token yield structurally equal results. -/
theorem C8_format_lookup_deterministic (tok : String)
    (f1 f2 : VideoPixelFormat)
    (h1 : VideoFormatFromString tok = .ok f1)
    (h2 : VideoFormatFromString tok = .ok f2) : f1 = f2 := by
  rw [h1] at h2
  injection h2

/-- Witness for C8 at the RGB24 token. -/
theorem C8_witness :
    VideoFormatFromString "RGB24" =
        .ok (VideoPixelFormat.mk "RGB24" 3 [8, 8, 8, 0] 24 false) ∧
      (VideoPixelFormat.mk "RGB24" 3 [8, 8, 8, 0] 24 false) =
        (VideoPixelFormat.mk "RGB24" 3 [8, 8, 8, 0] 24 false) :=
  ⟨rfl, C8_format_lookup_deterministic "RGB24" _ _ rfl rfl⟩

/-- C9: `Uri::Contains` answers exactly whether the key has a binding
in params and leaves the Uri unchanged. -/
theorem C9_contains_pure_lookup (u : Uri) (key : String) :
    ((u.ContainsM key).1 = true ↔ ∃ v, (key, v) ∈ u.params) ∧
      (u.ContainsM key).2 = u :=
  ⟨by simp only [Uri.ContainsM, Uri.Contains]; exact lookup_isSome_iff,
   rfl⟩

/-- C10: the string conversion of `VideoPixelFormat` returns exactly
its `format` field. -/
theorem C10_pixformat_string_is_format (p : VideoPixelFormat) :
    p.toStdString = p.format := rfl

end Pangolin
